import Mathlib

/-! # VkRT-Playground: engine bootstrap, scene-manager lifecycle and deferred calls

A shallow embedding of

* `src/engine/engine.cpp` (`chooseCorrectGPU`, `Engine::Engine`, `Engine::~Engine`),
* `src/main.cpp` (`main`),
* `src/scene/scene_loader.cpp` (`Scene::InitializeManager`, `Scene::destroyManager`,
  `Scene::Scene`),
* `src/utils/defer.hpp` (`CallOnDestroy`),

followed by the properties established about them.  Collaborators that the sources only
call (the Vulkan wrapper, the window, the FBX SDK) appear either as explicit inputs of
the embedded functions or as definitions marked `Modelled from the spec:`.
-/

namespace VkRT

/-! ## Vulkan constants used by the sources -/

/-- Value of `VK_QUEUE_GRAPHICS_BIT` in the Vulkan headers. -/
def VK_QUEUE_GRAPHICS_BIT : Nat := 0x1
/-- Value of `VK_QUEUE_COMPUTE_BIT` in the Vulkan headers. -/
def VK_QUEUE_COMPUTE_BIT : Nat := 0x2
/-- Value of `VK_QUEUE_TRANSFER_BIT` in the Vulkan headers. -/
def VK_QUEUE_TRANSFER_BIT : Nat := 0x4

/-- Value of `VK_KHR_SWAPCHAIN_EXTENSION_NAME` in the Vulkan headers. -/
def VK_KHR_SWAPCHAIN_EXTENSION_NAME : String := "VK_KHR_swapchain"
/-- Value of `VK_KHR_SHADER_CLOCK_EXTENSION_NAME` in the Vulkan headers. -/
def VK_KHR_SHADER_CLOCK_EXTENSION_NAME : String := "VK_KHR_shader_clock"
/-- Value of `VK_KHR_DEFERRED_HOST_OPERATIONS_EXTENSION_NAME` in the Vulkan headers. -/
def VK_KHR_DEFERRED_HOST_OPERATIONS_EXTENSION_NAME : String := "VK_KHR_deferred_host_operations"
/-- Value of `VK_KHR_ACCELERATION_STRUCTURE_EXTENSION_NAME` in the Vulkan headers. -/
def VK_KHR_ACCELERATION_STRUCTURE_EXTENSION_NAME : String := "VK_KHR_acceleration_structure"
/-- Value of `VK_KHR_RAY_TRACING_PIPELINE_EXTENSION_NAME` in the Vulkan headers. -/
def VK_KHR_RAY_TRACING_PIPELINE_EXTENSION_NAME : String := "VK_KHR_ray_tracing_pipeline"

/-! ## Adapters -/

/-- The part of `VkExtensionProperties` the sources read. -/
structure VkExtensionProperties where
  extensionName : String
  specVersion : Nat
  deriving DecidableEq, Repr

/-- One queue family of an adapter: its index in the layout, the `VkQueueFlags` bitmask,
the number of queues it offers, and whether it can present to the window surface (a
capability queried apart from the bitmask). -/
structure QueueFamily where
  index : Nat
  queueFlags : Nat
  queueCount : Nat
  presentSupport : Bool
  deriving DecidableEq, Repr

/-- The ordered queue-family layout of an adapter (`GPUQueueStructure`). -/
structure GPUQueueStructure where
  queueFamilies : List QueueFamily
  deriving DecidableEq, Repr

/-- Modelled from the spec: `GPUQueueStructure::isQueueFlagSupported` is declared in the
Vulkan wrapper, which is not among the sources.  Section 4.1 of the spec reads the call in
`chooseCorrectGPU` as "its queue-family layout contains at least one family advertising
the graphics capability"; so the flag is supported when some family has it in its mask. -/
def GPUQueueStructure.isQueueFlagSupported (q : GPUQueueStructure) (flag : Nat) : Bool :=
  q.queueFamilies.any fun f => f.queueFlags &&& flag != 0

/-- A physical adapter as `chooseCorrectGPU` sees it: `getProperties().deviceName`,
`getFeatures().geometryShader`, `getSupportedExtensions()` and `getQueueFamilies()`. -/
structure VulkanGPU where
  deviceName : String
  geometryShader : Bool
  supportedExtensions : List VkExtensionProperties
  queueFamilies : GPUQueueStructure
  deriving DecidableEq, Repr

/-- The function `chooseCorrectGPU` of `engine.cpp`.  The list is what
`VulkanContext::getGPUs()` returned; the three `continue` tests are the three `if`s of the
loop body in source order; falling out of the loop is the
`throw std::runtime_error("No valid GPU found")`.  Logging is left out. -/
def chooseCorrectGPU : List VulkanGPU → Except String VulkanGPU
  | [] => .error "No valid GPU found"
  | gpu :: rest =>
    if !gpu.geometryShader then chooseCorrectGPU rest
    else if !(gpu.supportedExtensions.any fun ext =>
        ext.extensionName == VK_KHR_RAY_TRACING_PIPELINE_EXTENSION_NAME) then
      chooseCorrectGPU rest
    else if !(gpu.queueFamilies.isQueueFlagSupported VK_QUEUE_GRAPHICS_BIT) then
      chooseCorrectGPU rest
    else .ok gpu

/-- The three hard requirements of section 4.1 of the spec, in the spec's words: the
geometry-shader feature is present, the ray-tracing-pipeline extension name is in the
supported-extension list, and some queue family advertises the graphics flag. -/
def meetsHardRequirements (g : VulkanGPU) : Prop :=
  g.geometryShader = true ∧
  VK_KHR_RAY_TRACING_PIPELINE_EXTENSION_NAME ∈ g.supportedExtensions.map (·.extensionName) ∧
  ∃ f ∈ g.queueFamilies.queueFamilies, f.queueFlags &&& VK_QUEUE_GRAPHICS_BIT ≠ 0

instance (g : VulkanGPU) : Decidable (meetsHardRequirements g) := by
  unfold meetsHardRequirements
  infer_instance

/-- A queue family with the given mask, for building examples. -/
def mkFamily (index flags count : Nat) (present : Bool) : QueueFamily :=
  { index := index, queueFlags := flags, queueCount := count, presentSupport := present }

/-- An adapter for examples: named, with the given geometry-shader feature, extension
names and queue families. -/
def mkGPU (name : String) (geom : Bool) (exts : List String) (fams : List QueueFamily) :
    VulkanGPU :=
  { deviceName := name, geometryShader := geom,
    supportedExtensions := exts.map fun n => { extensionName := n, specVersion := 1 },
    queueFamilies := { queueFamilies := fams } }

/-- An adapter without the geometry-shader feature. -/
def gpuNoGeometry : VulkanGPU :=
  mkGPU "no-geometry" false [VK_KHR_RAY_TRACING_PIPELINE_EXTENSION_NAME] [mkFamily 0 1 1 true]

/-- An adapter without the ray-tracing-pipeline extension. -/
def gpuNoRayTracing : VulkanGPU :=
  mkGPU "no-rt" true [VK_KHR_SWAPCHAIN_EXTENSION_NAME] [mkFamily 0 7 4 true]

/-- An adapter whose only queue family is compute and transfer. -/
def gpuNoGraphics : VulkanGPU :=
  mkGPU "no-graphics" true [VK_KHR_RAY_TRACING_PIPELINE_EXTENSION_NAME] [mkFamily 0 6 2 false]

/-- An adapter meeting the three requirements and supporting all five extensions the
engine registers. -/
def gpuFull : VulkanGPU :=
  mkGPU "full" true
    [VK_KHR_SWAPCHAIN_EXTENSION_NAME, VK_KHR_SHADER_CLOCK_EXTENSION_NAME,
     VK_KHR_DEFERRED_HOST_OPERATIONS_EXTENSION_NAME,
     VK_KHR_ACCELERATION_STRUCTURE_EXTENSION_NAME,
     VK_KHR_RAY_TRACING_PIPELINE_EXTENSION_NAME]
    [mkFamily 0 7 4 true, mkFamily 1 4 1 false]

/-- An adapter meeting the three requirements that lacks the shader-clock extension. -/
def gpuNoShaderClock : VulkanGPU :=
  mkGPU "no-shader-clock" true
    [VK_KHR_SWAPCHAIN_EXTENSION_NAME,
     VK_KHR_DEFERRED_HOST_OPERATIONS_EXTENSION_NAME,
     VK_KHR_ACCELERATION_STRUCTURE_EXTENSION_NAME,
     VK_KHR_RAY_TRACING_PIPELINE_EXTENSION_NAME]
    [mkFamily 0 7 4 true]

/-! ## Queue selection -/

/-- The roles a queue family can be selected for (`QueueFamilyTypeBits`). -/
inductive QueueFamilyTypeBits
  | GRAPHICS | COMPUTE | TRANSFER | PRESENT
  deriving DecidableEq, Repr

/-- A queue position handed out by the selector: the family, the queue inside the family
and the priority that was asked for. -/
structure QueueSelection where
  familyIndex : Nat
  queueIndex : Nat
  priority : ℚ
  deriving DecidableEq

/-- Modelled from the spec: `QueueFamilySelector` is declared in the Vulkan wrapper, which
is not among the sources.  Following section 4.2 it holds the layout it was built from,
the role-to-family records made by `selectQueueFamily`, and the queue slots allocated so
far, in allocation order. -/
structure QueueFamilySelector where
  structure_ : GPUQueueStructure
  selections : List (QueueFamilyTypeBits × Nat)
  queues : List QueueSelection

/-- Modelled from the spec: the constructor `QueueFamilySelector{queueStructure}` of the
absent wrapper; nothing is recorded or allocated yet. -/
def QueueFamilySelector.new (q : GPUQueueStructure) : QueueFamilySelector :=
  { structure_ := q, selections := [], queues := [] }

/-- Modelled from the spec: the capability a role needs from a family (section 4.2); the
bitmask bit for graphics, compute and transfer, the separate surface query for present. -/
def QueueFamily.supportsRole (f : QueueFamily) : QueueFamilyTypeBits → Bool
  | .GRAPHICS => f.queueFlags &&& VK_QUEUE_GRAPHICS_BIT != 0
  | .COMPUTE => f.queueFlags &&& VK_QUEUE_COMPUTE_BIT != 0
  | .TRANSFER => f.queueFlags &&& VK_QUEUE_TRANSFER_BIT != 0
  | .PRESENT => f.presentSupport

/-- Modelled from the spec: `selectQueueFamily` of the absent wrapper, the
`selectFamilyForRole` of section 4.2: "records that role should be served by family;
fails with IncompatibleRoleError if family's capability bitmask does not include the bit
required by role". -/
def QueueFamilySelector.selectQueueFamily (s : QueueFamilySelector) (family : QueueFamily)
    (role : QueueFamilyTypeBits) : Except String QueueFamilySelector :=
  if family.supportsRole role then
    .ok { s with selections := s.selections ++ [(role, family.index)] }
  else .error "IncompatibleRoleError"

/-- Modelled from the spec: `addQueue` of the absent wrapper, the `allocateQueue` of
section 4.2: a new queue slot within the family while capacity remains.  For an exhausted
family the spec's design intent and its testable properties make the call fail with
`QueueCapacityExceededError`; that reading is taken here. -/
def QueueFamilySelector.addQueue (s : QueueFamilySelector) (family : QueueFamily)
    (priority : ℚ) : Except String (QueueSelection × QueueFamilySelector) :=
  let used := (s.queues.filter fun q => q.familyIndex == family.index).length
  if used < family.queueCount then
    let q : QueueSelection :=
      { familyIndex := family.index, queueIndex := used, priority := priority }
    .ok (q, { s with queues := s.queues ++ [q] })
  else .error "QueueCapacityExceededError"

/-- Modelled from the spec: `getOrAddQueue` of the absent wrapper (section 4.2): "returns
an existing QueueSelection for the (family) if the role already has one; otherwise
allocates". -/
def QueueFamilySelector.getOrAddQueue (s : QueueFamilySelector) (family : QueueFamily)
    (priority : ℚ) : Except String (QueueSelection × QueueFamilySelector) :=
  match s.queues.find? fun q => q.familyIndex == family.index with
  | some q => .ok (q, s)
  | none => s.addQueue family priority

/-- The four queue positions the engine keeps (`m_GraphicsQueuePos`, `m_ComputeQueuePos`,
`m_TransferQueuePos`, `m_presentQueuePos`). -/
structure QueuePositions where
  graphics : QueueSelection
  compute : QueueSelection
  transfer : QueueSelection
  present : QueueSelection
  deriving DecidableEq

/-- Lines 77-84 of `engine.cpp`: the selector is built from the layout, the graphics and
compute families are recorded, then the four queue positions are requested in source
order (graphics by `getOrAddQueue`, then compute, transfer and present by `addQueue`),
each with priority `1.0`.  The four families are what `findQueueFamily` and
`findPresentQueueFamily` returned on lines 72-75; those lookups belong to the absent
wrapper and the spec leaves their tie-break open, so their results are inputs here. -/
def selectQueues (queueStructure : GPUQueueStructure)
    (graphicsQueueFamily computeQueueFamily presentQueueFamily transferQueueFamily :
      QueueFamily) : Except String (QueuePositions × QueueFamilySelector) := do
  let selector := QueueFamilySelector.new queueStructure
  let selector ← selector.selectQueueFamily graphicsQueueFamily .GRAPHICS
  let selector ← selector.selectQueueFamily computeQueueFamily .COMPUTE
  let (graphicsPos, selector) ← selector.getOrAddQueue graphicsQueueFamily 1
  let (computePos, selector) ← selector.addQueue computeQueueFamily 1
  let (transferPos, selector) ← selector.addQueue transferQueueFamily 1
  let (presentPos, selector) ← selector.addQueue presentQueueFamily 1
  return ({ graphics := graphicsPos, compute := computePos, transfer := transferPos,
            present := presentPos }, selector)

/-- Family 0 of the synthetic adapter of the spec's end-to-end property: graphics, compute,
transfer and present capable, 4 queues. -/
def syntheticFamily0 : QueueFamily :=
  { index := 0,
    queueFlags := VK_QUEUE_GRAPHICS_BIT ||| VK_QUEUE_COMPUTE_BIT ||| VK_QUEUE_TRANSFER_BIT,
    queueCount := 4, presentSupport := true }

/-- Family 1 of the synthetic adapter: transfer only, 1 queue. -/
def syntheticFamily1 : QueueFamily :=
  { index := 1, queueFlags := VK_QUEUE_TRANSFER_BIT, queueCount := 1,
    presentSupport := false }

/-- The queue layout of the synthetic adapter. -/
def syntheticLayout : GPUQueueStructure :=
  { queueFamilies := [syntheticFamily0, syntheticFamily1] }

/-- A queue position is valid for a layout when its family is in the layout and its queue
index is below that family's queue count. -/
def QueueSelection.validIn (q : QueueSelection) (layout : GPUQueueStructure) : Prop :=
  ∃ f ∈ layout.queueFamilies, f.index = q.familyIndex ∧ q.queueIndex < f.queueCount

/-- Two queue positions conflict when they name the same queue of the same family. -/
def QueueSelection.conflicts (a b : QueueSelection) : Prop :=
  a.familyIndex = b.familyIndex ∧ a.queueIndex = b.queueIndex

instance (q : QueueSelection) (layout : GPUQueueStructure) : Decidable (q.validIn layout) := by
  unfold QueueSelection.validIn
  infer_instance

instance (a b : QueueSelection) : Decidable (a.conflicts b) := by
  unfold QueueSelection.conflicts
  infer_instance

/-! ## Device extensions -/

/-- Handles into the resource table (`ResourceID`). -/
abbrev ResourceID := Nat

/-- An extension descriptor as the engine constructs it (`new VulkanSwapchainExtension(
m_DeviceID)` and its four siblings): the device ID it was handed and its boolean feature
switches.  The ID is `none` when the member it was read from had not been assigned. -/
structure VulkanDeviceExtension where
  deviceID : Option ResourceID
  flags : List Bool
  deriving DecidableEq, Repr

/-- Modelled from the spec: `VulkanDeviceExtensionManager` is declared in the Vulkan
wrapper, which is not among the sources.  Following section 4.3 it owns the registered
descriptors under their names, in registration order. -/
structure VulkanDeviceExtensionManager where
  extensions : List (String × VulkanDeviceExtension)
  deriving DecidableEq, Repr

/-- Modelled from the spec: the declared prerequisites of an extension.  Section 4.3 names
"ray-tracing pipeline extension requiring acceleration-structure extension"; that
acceleration-structure in turn requires deferred-host-operations is the dependency the
Vulkan registry declares for it.  The other registered extensions declare none. -/
def extensionPrerequisites (name : String) : List String :=
  if name = VK_KHR_RAY_TRACING_PIPELINE_EXTENSION_NAME then
    [VK_KHR_ACCELERATION_STRUCTURE_EXTENSION_NAME]
  else if name = VK_KHR_ACCELERATION_STRUCTURE_EXTENSION_NAME then
    [VK_KHR_DEFERRED_HOST_OPERATIONS_EXTENSION_NAME]
  else []

/-- Modelled from the spec: `populateExtensionNames` of the absent manager (section 4.3):
"appends every registered name into the caller-supplied ordered sequence, in registration
order". -/
def VulkanDeviceExtensionManager.populateExtensionNames (m : VulkanDeviceExtensionManager)
    (out : List String) : List String :=
  out ++ m.extensions.map (·.1)

/-- Modelled from the spec: `addExtension` of the absent manager (section 4.3 and the
testable properties): registering a name twice fails with `DuplicateExtensionError`,
registering an extension one of whose declared prerequisites was never registered fails
with `UnmetExtensionDependencyError`, otherwise the descriptor is owned under the name. -/
def VulkanDeviceExtensionManager.addExtension (m : VulkanDeviceExtensionManager)
    (name : String) (ext : VulkanDeviceExtension) :
    Except String VulkanDeviceExtensionManager :=
  if name ∈ m.populateExtensionNames [] then .error "DuplicateExtensionError"
  else if (extensionPrerequisites name).all fun p => p ∈ m.populateExtensionNames [] then
    .ok { extensions := m.extensions ++ [(name, ext)] }
  else .error "UnmetExtensionDependencyError"

/-! ## The engine -/

/-- The objects engine construction brings into being. -/
inductive Obj
  | window | context | surface | device | swapchain | commandBuffer | depthImage
  | depthImageView | renderPass
  deriving DecidableEq, Repr, Fintype

/-- Calls `Engine::Engine` makes on its collaborators, with the engine members passed
along.  A handle argument is `none` when the member was read before being assigned. -/
inductive Call
  | windowCtor (name : String) (width height : Nat)
  | contextInit (validation : Bool)
  | createSurface
  | getGPUs
  | findQueueFamily (flags : Nat)
  | findPresentQueueFamily
  | addExtension (name : String) (deviceID : Option ResourceID)
  | createDevice (gpu : String) (queues : List QueueSelection) (extensions : List String)
  | getDevice (deviceID : Option ResourceID)
  | getSwapchainExtension
  | createSwapchain
  | getSwapchain (swapchainID : Option ResourceID)
  | configureOneTimeQueue (pos : Option QueueSelection)
  | createCommandBuffer (familyIndex : Nat)
  | findSupportedFormat
  | createImage
  | getImage (imageID : Option ResourceID)
  | allocateFromFlags
  | createImageView
  | createRenderPass (attachments subpasses dependencies : Nat)
  deriving DecidableEq

/-- The object a call creates, if any. -/
def Call.creates : Call → Option Obj
  | .windowCtor _ _ _ => some .window
  | .contextInit _ => some .context
  | .createSurface => some .surface
  | .createDevice _ _ _ => some .device
  | .createSwapchain => some .swapchain
  | .createCommandBuffer _ => some .commandBuffer
  | .createImage => some .depthImage
  | .createImageView => some .depthImageView
  | .createRenderPass _ _ _ => some .renderPass
  | _ => none

/-- The resource handles a call receives from engine members. -/
def Call.handles : Call → List (Option ResourceID)
  | .addExtension _ d => [d]
  | .getDevice d => [d]
  | .getSwapchain s => [s]
  | .getImage i => [i]
  | _ => []

/-- What the collaborators of the engine do in one run of the program: the adapters
`VulkanContext::getGPUs()` enumerates, the results of the queue-family lookups of the
absent wrapper, the handles the creation calls return, which calls throw a
`std::exception` (and its `what()`), and at which poll, if ever, the window asks to
close, and whether `FbxManager::Create()` returns a manager. -/
structure World where
  gpus : List VulkanGPU
  findQueueFamily : GPUQueueStructure → Nat → Except String QueueFamily
  findPresentQueueFamily : GPUQueueStructure → Except String QueueFamily
  deviceID : ResourceID
  swapchainID : ResourceID
  commandBufferID : ResourceID
  depthImageID : ResourceID
  depthImageView : Nat
  renderPassID : ResourceID
  throwsAt : Call → Option String
  windowClosesAt : Option Nat
  fbxManagerCreates : Bool

/-- The data members of `Engine` (`engine.hpp`).  A member is `none` until the
constructor assigns it. -/
structure Engine where
  m_DeviceID : Option ResourceID := none
  m_SwapchainID : Option ResourceID := none
  m_graphicsCmdBufferID : Option ResourceID := none
  m_DepthImageID : Option ResourceID := none
  m_DepthImageView : Option Nat := none
  m_RenderPassID : Option ResourceID := none
  m_PipelineID : Option ResourceID := none
  m_GraphicsQueuePos : Option QueueSelection := none
  m_ComputeQueuePos : Option QueueSelection := none
  m_TransferQueuePos : Option QueueSelection := none
  m_presentQueuePos : Option QueueSelection := none
  deriving DecidableEq

/-- Straight-line code that records the collaborator calls made so far and stops at the
first exception. -/
def Boot (α : Type) : Type := List Call → Except String α × List Call

instance : Monad Boot where
  pure a := fun tr => (.ok a, tr)
  bind m f := fun tr =>
    match m tr with
    | (.ok a, tr1) => f a tr1
    | (.error e, tr1) => (.error e, tr1)

/-- A collaborator call: it is recorded, and it throws when the world says so. -/
def Boot.call (w : World) (c : Call) : Boot Unit := fun tr =>
  match w.throwsAt c with
  | some e => (.error e, tr ++ [c])
  | none => (.ok (), tr ++ [c])

/-- A computation of the embedding that may throw, run inside the constructor. -/
def Boot.throwing {α : Type} (x : Except String α) : Boot α := fun tr => (x, tr)

/-- One `manager.addExtension(name, new ...Extension(deviceID, flags...))` statement: the
call is recorded with the device ID it was given, then the manager registers it. -/
def Boot.addExtension (m : VulkanDeviceExtensionManager) (name : String)
    (deviceID : Option ResourceID) (flags : List Bool) :
    Boot VulkanDeviceExtensionManager := fun tr =>
  (m.addExtension name { deviceID := deviceID, flags := flags },
    tr ++ [.addExtension name deviceID])

/-- Lines 89-94 of `engine.cpp`: a fresh manager and the five registrations, in source
order, each descriptor built from the value of `m_DeviceID` at that point. -/
def Engine.registerExtensions (m_DeviceID : Option ResourceID) :
    Boot VulkanDeviceExtensionManager := do
  let manager : VulkanDeviceExtensionManager := { extensions := [] }
  let manager ← Boot.addExtension manager VK_KHR_SWAPCHAIN_EXTENSION_NAME m_DeviceID []
  let manager ← Boot.addExtension manager VK_KHR_SHADER_CLOCK_EXTENSION_NAME m_DeviceID
    [false, false]
  let manager ← Boot.addExtension manager VK_KHR_DEFERRED_HOST_OPERATIONS_EXTENSION_NAME
    m_DeviceID []
  let manager ← Boot.addExtension manager VK_KHR_ACCELERATION_STRUCTURE_EXTENSION_NAME
    m_DeviceID [true, false, false, false, false]
  let manager ← Boot.addExtension manager VK_KHR_RAY_TRACING_PIPELINE_EXTENSION_NAME
    m_DeviceID [true, false, false, false, false]
  return manager

/-- The constructor `Engine::Engine` of `engine.cpp`, statement by statement.  `debug` is
whether `_DEBUG` is defined.  Logging, the camera and the locally built render-pass and
pipeline descriptions are left out; the pipeline builder creates nothing and
`m_PipelineID` is never assigned. -/
def Engine.ctor (w : World) (debug : Bool) (p_WindowName : String)
    (p_WindowSize : Nat × Nat) : Boot Engine := do
  -- member initialisers: m_Window(p_WindowName, p_WindowSize), m_Cam(...)
  Boot.call w (.windowCtor p_WindowName p_WindowSize.1 p_WindowSize.2)
  let e : Engine := {}
  -- Vulkan Instance
  Boot.call w (.contextInit debug)
  -- Vulkan Surface
  Boot.call w .createSurface
  -- Choose Physical Device
  Boot.call w .getGPUs
  let gpu ← Boot.throwing (chooseCorrectGPU w.gpus)
  -- Select Queue Families
  let queueStructure := gpu.queueFamilies
  Boot.call w (.findQueueFamily VK_QUEUE_GRAPHICS_BIT)
  let graphicsQueueFamily ← Boot.throwing (w.findQueueFamily queueStructure VK_QUEUE_GRAPHICS_BIT)
  Boot.call w (.findQueueFamily VK_QUEUE_COMPUTE_BIT)
  let computeQueueFamily ← Boot.throwing (w.findQueueFamily queueStructure VK_QUEUE_COMPUTE_BIT)
  Boot.call w .findPresentQueueFamily
  let presentQueueFamily ← Boot.throwing (w.findPresentQueueFamily queueStructure)
  Boot.call w (.findQueueFamily VK_QUEUE_TRANSFER_BIT)
  let transferQueueFamily ← Boot.throwing (w.findQueueFamily queueStructure VK_QUEUE_TRANSFER_BIT)
  -- Select Queue Families and assign queues
  let (pos, selector) ← Boot.throwing
    (selectQueues queueStructure graphicsQueueFamily computeQueueFamily presentQueueFamily
      transferQueueFamily)
  let e := { e with m_GraphicsQueuePos := some pos.graphics,
                    m_ComputeQueuePos := some pos.compute,
                    m_TransferQueuePos := some pos.transfer,
                    m_presentQueuePos := some pos.present }
  -- Logical Device
  let manager ← Engine.registerExtensions e.m_DeviceID
  Boot.call w (.createDevice gpu.deviceName selector.queues (manager.populateExtensionNames []))
  let e := { e with m_DeviceID := some w.deviceID }
  Boot.call w (.getDevice e.m_DeviceID)
  -- Swapchain
  Boot.call w .getSwapchainExtension
  Boot.call w .createSwapchain
  let e := { e with m_SwapchainID := some w.swapchainID }
  Boot.call w (.getSwapchain e.m_SwapchainID)
  -- Command Buffers
  Boot.call w (.configureOneTimeQueue e.m_TransferQueuePos)
  Boot.call w (.createCommandBuffer graphicsQueueFamily.index)
  let e := { e with m_graphicsCmdBufferID := some w.commandBufferID }
  -- Depth buffer
  Boot.call w .findSupportedFormat
  Boot.call w .createImage
  let e := { e with m_DepthImageID := some w.depthImageID }
  Boot.call w (.getImage e.m_DepthImageID)
  Boot.call w .allocateFromFlags
  Boot.call w (.getImage e.m_DepthImageID)
  Boot.call w .createImageView
  let e := { e with m_DepthImageView := some w.depthImageView }
  -- Render Pass
  Boot.call w (.createRenderPass 2 1 1)
  let e := { e with m_RenderPassID := some w.renderPassID }
  -- Graphics Pipeline: the builder is filled in, nothing is created
  return e

/-- The calls made when an `Engine` is destroyed: the three statements of the body of
`Engine::~Engine`, then the destructor of the member `m_Window`, which the language runs
after the body.  What each of them releases is decided by the absent collaborators and
is not modelled. -/
inductive ReleaseCall
  | freeDevice (deviceID : Option ResourceID)
  | windowFree
  | contextFree
  | windowDestructor
  deriving DecidableEq, Repr

/-- The destructor `Engine::~Engine` of `engine.cpp`: its three statements in source
order, followed by the destruction of the member `m_Window`.  The camera is left out, as
in the constructor. -/
def Engine.dtor (e : Engine) : List ReleaseCall :=
  [.freeDevice e.m_DeviceID, .windowFree, .contextFree, .windowDestructor]

/-- The objects in the order construction created them, read off the recorded calls. -/
def creationOrder (tr : List Call) : List Obj :=
  tr.filterMap Call.creates

/-- A world in which every collaborator succeeds: the given adapters, the queue lookups of
the spec's end-to-end scenario on the synthetic layout (graphics, compute and present on
family 0, transfer on family 1), fixed handles, and a window that asks to close at the
first poll. -/
def happyWorld (gpus : List VulkanGPU) : World :=
  { gpus := gpus
    findQueueFamily := fun _ flags =>
      if flags = VK_QUEUE_TRANSFER_BIT then .ok syntheticFamily1 else .ok syntheticFamily0
    findPresentQueueFamily := fun _ => .ok syntheticFamily0
    deviceID := 7
    swapchainID := 11
    commandBufferID := 13
    depthImageID := 17
    depthImageView := 19
    renderPassID := 23
    throwsAt := fun _ => none
    windowClosesAt := some 0
    fbxManagerCreates := true }

/-- The loop of `Engine::run`: the window is polled until it asks to close.  The result
is the number of polls answered "keep going", or `none` when the window never asks to
close and the loop does not return. -/
def Engine.run (_e : Engine) (w : World) : Option Nat :=
  w.windowClosesAt

/-! ## The scene manager -/

/-- What happens to native FBX managers: `FbxManager::Create()` returned manager `id`
while `s_Manager` held `held`, or `Destroy()` was called on manager `id`. -/
inductive ManagerEvent
  | create (id : Nat) (held : Option Nat)
  | destroy (id : Nat)
  deriving DecidableEq, Repr

/-- The static state of `Scene` (`inline static FbxManager* s_Manager = nullptr`) together
with the native side: the next manager `FbxManager::Create()` will hand out and the
history of creations and destructions. -/
structure SceneState where
  s_Manager : Option Nat
  nextManager : Nat
  events : List ManagerEvent
  deriving DecidableEq, Repr

/-- The state at program start: `s_Manager` is `nullptr`, nothing has been created. -/
def SceneState.initial : SceneState :=
  { s_Manager := none, nextManager := 0, events := [] }

/-- The function `Scene::InitializeManager` of `scene_loader.cpp`.  `createOk` is whether
`FbxManager::Create()` returns a manager or `nullptr`; the result of the call is assigned
to `s_Manager` unconditionally, as on line 11.  The IO settings and logging are left
out. -/
def Scene.InitializeManager (createOk : Bool) (st : SceneState) : Bool × SceneState :=
  -- s_Manager = FbxManager::Create();
  let st : SceneState :=
    if createOk then
      { s_Manager := some st.nextManager, nextManager := st.nextManager + 1,
        events := st.events ++ [.create st.nextManager st.s_Manager] }
    else { st with s_Manager := none }
  -- if (!s_Manager) return false;
  if st.s_Manager.isNone then (false, st)
  else (true, st)

/-- The function `Scene::destroyManager` of `scene_loader.cpp`. -/
def Scene.destroyManager (st : SceneState) : SceneState :=
  match st.s_Manager with
  | some m => { st with s_Manager := none, events := st.events ++ [.destroy m] }
  | none => st

/-- The constructor `Scene::Scene` of `scene_loader.cpp`, as far as the manager is
concerned: initialisation is forced when no manager is held.  The importer and the scene
object it then creates do not touch `s_Manager` and are left out. -/
def Scene.ctor (createOk : Bool) (st : SceneState) : SceneState :=
  if st.s_Manager.isNone then (Scene.InitializeManager createOk st).2
  else st

/-- The three operations a client can call on the scene subsystem; a call that may create
a manager carries the answer of `FbxManager::Create()`. -/
inductive SceneCall
  | InitializeManager (createOk : Bool)
  | destroyManager
  | Scene (createOk : Bool)
  deriving DecidableEq, Repr

/-- One call on the scene subsystem. -/
def SceneCall.apply (st : SceneState) : SceneCall → SceneState
  | .InitializeManager ok => (Scene.InitializeManager ok st).2
  | .destroyManager => Scene.destroyManager st
  | .Scene ok => Scene.ctor ok st

/-- A sequence of calls, from the left. -/
def runSceneCalls (calls : List SceneCall) (st : SceneState) : SceneState :=
  calls.foldl SceneCall.apply st

/-- The managers a history destroyed, in order. -/
def destroyedManagers (events : List ManagerEvent) : List Nat :=
  events.filterMap fun ev => match ev with
    | .destroy m => some m
    | .create _ _ => none

/-- The managers a history created, in order. -/
def createdManagers (events : List ManagerEvent) : List Nat :=
  events.filterMap fun ev => match ev with
    | .create m _ => some m
    | .destroy _ => none

/-- The lifecycle property "a native manager is created only when none is currently
held", checked over a history: every creation found the pointer empty. -/
def createdOnlyWhenNoneHeld (events : List ManagerEvent) : Bool :=
  events.all fun ev => match ev with
    | .create _ held => held.isNone
    | .destroy _ => true

/-- What every reachable scene state satisfies: all managers of the history are below the
next one to hand out, the held manager is one of them and has not been destroyed, and no
manager was destroyed twice. -/
def SceneState.wellFormed (st : SceneState) : Prop :=
  (∀ m ∈ createdManagers st.events, m < st.nextManager) ∧
  (∀ m ∈ destroyedManagers st.events, m < st.nextManager) ∧
  (∀ m, st.s_Manager = some m → m < st.nextManager ∧ m ∉ destroyedManagers st.events) ∧
  (destroyedManagers st.events).Nodup

/-! ## Deferred calls -/

/-- The class `CallOnDestroy` of `defer.hpp`: the vector of deferred functions.  A
`std::function<void()>` acts on the program state `σ`. -/
structure CallOnDestroy (σ : Type) where
  m_DeferedFunctions : List (σ → σ)

/-- The defaulted constructor `CallOnDestroy()`: an empty vector; the program state is
untouched. -/
def CallOnDestroy.default {σ : Type} (s : σ) : CallOnDestroy σ × σ :=
  ({ m_DeferedFunctions := [] }, s)

/-- The method `defer`: `m_DeferedFunctions.push_back(func)`; the program state is
untouched. -/
def CallOnDestroy.defer {σ : Type} (c : CallOnDestroy σ) (func : σ → σ) (s : σ) :
    CallOnDestroy σ × σ :=
  ({ m_DeferedFunctions := c.m_DeferedFunctions ++ [func] }, s)

/-- The constructor `explicit CallOnDestroy(func)`: the vector starts empty and the body
calls `defer(func)`. -/
def CallOnDestroy.ctor {σ : Type} (func : σ → σ) (s : σ) : CallOnDestroy σ × σ :=
  let (c, s) := CallOnDestroy.default s
  c.defer func s

/-- The destructor `~CallOnDestroy`: the range-for over `m_DeferedFunctions`, calling each
function on the program state in vector order. -/
def CallOnDestroy.dtor {σ : Type} (c : CallOnDestroy σ) (s : σ) : σ :=
  c.m_DeferedFunctions.foldl (fun s func => func s) s

/-- A sequence of `defer` calls on an instance, in call order. -/
def CallOnDestroy.deferAll {σ : Type} (c : CallOnDestroy σ) (funcs : List (σ → σ)) (s : σ) :
    CallOnDestroy σ × σ :=
  funcs.foldl (fun cs func => cs.1.defer func cs.2) (c, s)

/-- A function that does nothing but note that it ran, for observing invocations: the
program state is the list of notes. -/
def noteCall {ι : Type} (i : ι) : List ι → List ι :=
  fun notes => notes ++ [i]

/-! ## Program entry -/

/-- Levels of the logger that the sources use. -/
inductive LogLevel
  | INFO | WARN | ERR
  deriving DecidableEq, Repr

/-- What `main` does that can be observed from outside the engine. -/
inductive MainEvent
  | setLevels (levels : List LogLevel)
  | setRootContext (name : String)
  | engineConstruct (name : String) (width height : Nat)
  | engineRun
  | print (message : String) (level : LogLevel)
  | pushContext (name : String)
  | engineDestroy (releases : List ReleaseCall)
  | rethrow
  deriving DecidableEq

/-- Whether an event is a message logged at error level. -/
def MainEvent.isErrorLog : MainEvent → Bool
  | .print _ .ERR => true
  | _ => false

/-- Whether an event is the construction of an engine. -/
def MainEvent.isEngineConstruct : MainEvent → Bool
  | .engineConstruct _ _ _ => true
  | _ => false

/-- The program state `main` works on: the scene subsystem and the events so far. -/
structure MainState where
  scene : SceneState
  events : List MainEvent
  deriving DecidableEq

/-- Appending one event. -/
def MainState.emit (st : MainState) (ev : MainEvent) : MainState :=
  { st with events := st.events ++ [ev] }

/-- The function `Scene::destroyManager` acting on the program state of `main`. -/
def MainState.destroyManager (st : MainState) : MainState :=
  { st with scene := Scene.destroyManager st.scene }

/-- How `main` ends: it returns, an exception leaves it, or it never gets out of
`engine.run()`. -/
inductive Outcome
  | returned (code : Nat)
  | uncaught (what : String)
  | running
  deriving DecidableEq, Repr

/-- The final program state of `main` and how it ended. -/
structure MainResult where
  state : MainState
  outcome : Outcome
  deriving DecidableEq

/-- The function `main` of `main.cpp`.  `debug` is whether `_DEBUG` is defined.  The `try`
block runs statement by statement; leaving it, normally or by an exception, destroys the
locals constructed so far in reverse order (`engine`, then `sceneManagerDestroy`); the
handler logs at error level and rethrows in debug builds only.  All `Logger::ALL` is
known to contain is the three levels used by the sources. -/
def main (w : World) (debug : Bool) : MainResult :=
  let st : MainState := { scene := SceneState.initial, events := [] }
  -- try {
  let st := st.emit (.setLevels (if debug then [.INFO, .WARN, .ERR] else [.WARN, .ERR]))
  let st := st.emit (.setRootContext "VkRT")
  let st := { st with scene := (Scene.InitializeManager w.fbxManagerCreates st.scene).2 }
  let (sceneManagerDestroy, st) := CallOnDestroy.ctor MainState.destroyManager st
  let st := st.emit (.engineConstruct "VkRT" 1920 1080)
  match Engine.ctor w debug "VkRT" (1920, 1080) [] with
  | (.ok engine, _) =>
    let st := st.emit .engineRun
    match engine.run w with
    | none => { state := st, outcome := .running }
    | some _ =>
      let st := st.emit (.print "Cleaning up resources..." .INFO)
      let st := st.emit (.pushContext "Cleanup")
      -- } end of the try block: ~Engine, then ~CallOnDestroy
      let st := st.emit (.engineDestroy engine.dtor)
      let st := sceneManagerDestroy.dtor st
      { state := st, outcome := .returned 0 }
  | (.error what, _) =>
    -- the constructor threw: no engine object exists; unwinding runs ~CallOnDestroy
    let st := sceneManagerDestroy.dtor st
    -- catch (const std::exception& e)
    let st := st.emit (.print ("Exception caught: " ++ what) .ERR)
    if debug then { state := st.emit .rethrow, outcome := .uncaught what }
    else { state := st, outcome := .returned 0 }

/-- The names of the device extensions engine construction registers for device
creation: what the manager built by `Engine.registerExtensions` enumerates. -/
def registeredExtensionNames : List String :=
  match (Engine.registerExtensions none []).1 with
  | .ok manager => manager.populateExtensionNames []
  | .error _ => []

/-- The extension names an adapter supports. -/
def VulkanGPU.supportedExtensionNames (g : VulkanGPU) : List String :=
  g.supportedExtensions.map (·.extensionName)

/-- The manager engine construction builds, holding the five descriptors. -/
def engineManager (d : Option ResourceID) : VulkanDeviceExtensionManager :=
  { extensions :=
      [(VK_KHR_SWAPCHAIN_EXTENSION_NAME, { deviceID := d, flags := [] }),
       (VK_KHR_SHADER_CLOCK_EXTENSION_NAME, { deviceID := d, flags := [false, false] }),
       (VK_KHR_DEFERRED_HOST_OPERATIONS_EXTENSION_NAME, { deviceID := d, flags := [] }),
       (VK_KHR_ACCELERATION_STRUCTURE_EXTENSION_NAME,
         { deviceID := d, flags := [true, false, false, false, false] }),
       (VK_KHR_RAY_TRACING_PIPELINE_EXTENSION_NAME,
         { deviceID := d, flags := [true, false, false, false, false] })] }

/-- The calls of a completed engine construction, in order, as a function of what the
collaborators answered: the chosen adapter, the graphics family, the selector state and
the transfer queue position. -/
def engineCalls (w : World) (debug : Bool) (name : String) (size : Nat × Nat)
    (gpu : VulkanGPU) (graphicsQueueFamily : QueueFamily) (selector : QueueFamilySelector)
    (pos : QueuePositions) : List Call :=
  [.windowCtor name size.1 size.2,
   .contextInit debug,
   .createSurface,
   .getGPUs,
   .findQueueFamily VK_QUEUE_GRAPHICS_BIT,
   .findQueueFamily VK_QUEUE_COMPUTE_BIT,
   .findPresentQueueFamily,
   .findQueueFamily VK_QUEUE_TRANSFER_BIT,
   .addExtension VK_KHR_SWAPCHAIN_EXTENSION_NAME none,
   .addExtension VK_KHR_SHADER_CLOCK_EXTENSION_NAME none,
   .addExtension VK_KHR_DEFERRED_HOST_OPERATIONS_EXTENSION_NAME none,
   .addExtension VK_KHR_ACCELERATION_STRUCTURE_EXTENSION_NAME none,
   .addExtension VK_KHR_RAY_TRACING_PIPELINE_EXTENSION_NAME none,
   .createDevice gpu.deviceName selector.queues registeredExtensionNames,
   .getDevice (some w.deviceID),
   .getSwapchainExtension,
   .createSwapchain,
   .getSwapchain (some w.swapchainID),
   .configureOneTimeQueue (some pos.transfer),
   .createCommandBuffer graphicsQueueFamily.index,
   .findSupportedFormat,
   .createImage,
   .getImage (some w.depthImageID),
   .allocateFromFlags,
   .getImage (some w.depthImageID),
   .createImageView,
   .createRenderPass 2 1 1]

/-- The engine members after a completed construction. -/
def engineBuilt (w : World) (pos : QueuePositions) : Engine :=
  { m_DeviceID := some w.deviceID, m_SwapchainID := some w.swapchainID,
    m_graphicsCmdBufferID := some w.commandBufferID,
    m_DepthImageID := some w.depthImageID, m_DepthImageView := some w.depthImageView,
    m_RenderPassID := some w.renderPassID, m_PipelineID := none,
    m_GraphicsQueuePos := some pos.graphics, m_ComputeQueuePos := some pos.compute,
    m_TransferQueuePos := some pos.transfer, m_presentQueuePos := some pos.present }

/-- Whether a call is an extension registration. -/
def Call.isAddExtension : Call → Bool
  | .addExtension _ _ => true
  | _ => false

/-- Whether a call is the device creation. -/
def Call.isCreateDevice : Call → Bool
  | .createDevice _ _ _ => true
  | _ => false

/-- The creation order of a completed engine construction. -/
def engineCreationOrder : List Obj :=
  [.window, .context, .surface, .device, .swapchain, .commandBuffer, .depthImage,
   .depthImageView, .renderPass]

/-! ## Properties of adapter selection -/

theorem meets_iff_checks (g : VulkanGPU) :
    meetsHardRequirements g ↔
      (g.geometryShader = true ∧
        (g.supportedExtensions.any fun ext =>
          ext.extensionName == VK_KHR_RAY_TRACING_PIPELINE_EXTENSION_NAME) = true ∧
        g.queueFamilies.isQueueFlagSupported VK_QUEUE_GRAPHICS_BIT = true) := by
  unfold meetsHardRequirements GPUQueueStructure.isQueueFlagSupported
  simp only [List.mem_map, List.any_eq_true, beq_iff_eq, bne_iff_ne, ne_eq]

theorem chooseCorrectGPU_cons_skip (g : VulkanGPU) (rest : List VulkanGPU)
    (h : ¬ meetsHardRequirements g) :
    chooseCorrectGPU (g :: rest) = chooseCorrectGPU rest := by
  rw [meets_iff_checks] at h
  by_cases h1 : g.geometryShader = true
  · by_cases h2 : (g.supportedExtensions.any fun ext =>
        ext.extensionName == VK_KHR_RAY_TRACING_PIPELINE_EXTENSION_NAME) = true
    · have h3 : g.queueFamilies.isQueueFlagSupported VK_QUEUE_GRAPHICS_BIT = false := by
        cases hq : g.queueFamilies.isQueueFlagSupported VK_QUEUE_GRAPHICS_BIT
        · rfl
        · exact absurd ⟨h1, h2, hq⟩ h
      simp [chooseCorrectGPU, h1, h2, h3]
    · simp [chooseCorrectGPU, h1, h2]
  · simp [chooseCorrectGPU, h1]

theorem chooseCorrectGPU_cons_take (g : VulkanGPU) (rest : List VulkanGPU)
    (h : meetsHardRequirements g) :
    chooseCorrectGPU (g :: rest) = .ok g := by
  rw [meets_iff_checks] at h
  obtain ⟨h1, h2, h3⟩ := h
  simp [chooseCorrectGPU, h1, h2, h3]





theorem chooseCorrectGPU_first (gpus : List VulkanGPU)
    (h : ∃ g ∈ gpus, meetsHardRequirements g) :
    ∃ pre g post, gpus = pre ++ g :: post ∧ chooseCorrectGPU gpus = .ok g ∧
      meetsHardRequirements g ∧ ∀ p ∈ pre, ¬ meetsHardRequirements p := by
  induction gpus with
  | nil => simp at h
  | cons a rest ih =>
    by_cases ha : meetsHardRequirements a
    · exact ⟨[], a, rest, rfl, chooseCorrectGPU_cons_take a rest ha, ha, by simp⟩
    · have hrest : ∃ g ∈ rest, meetsHardRequirements g := by
        obtain ⟨g, hg, hm⟩ := h
        rcases List.mem_cons.mp hg with rfl | hg
        · exact absurd hm ha
        · exact ⟨g, hg, hm⟩
      obtain ⟨pre, g, post, hsplit, hres, hm, hpre⟩ := ih hrest
      refine ⟨a :: pre, g, post, by simp [hsplit], ?_, hm, ?_⟩
      · rw [chooseCorrectGPU_cons_skip a rest ha]; exact hres
      · intro p hp
        rcases List.mem_cons.mp hp with rfl | hp
        · exact ha
        · exact hpre p hp

theorem chooseCorrectGPU_error_of_none (gpus : List VulkanGPU)
    (h : ∀ g ∈ gpus, ¬ meetsHardRequirements g) :
    chooseCorrectGPU gpus = .error "No valid GPU found" := by
  induction gpus with
  | nil => rfl
  | cons a rest ih =>
    rw [chooseCorrectGPU_cons_skip a rest (h a (List.mem_cons_self a rest))]
    exact ih fun g hg => h g (List.mem_cons_of_mem a hg)

theorem chooseCorrectGPU_ok_mem (gpus : List VulkanGPU) (g : VulkanGPU)
    (h : chooseCorrectGPU gpus = .ok g) : g ∈ gpus ∧ meetsHardRequirements g := by
  induction gpus with
  | nil => simp [chooseCorrectGPU] at h
  | cons a rest ih =>
    by_cases ha : meetsHardRequirements a
    · rw [chooseCorrectGPU_cons_take a rest ha] at h
      cases h
      exact ⟨List.mem_cons_self _ _, ha⟩
    · rw [chooseCorrectGPU_cons_skip a rest ha] at h
      exact ⟨List.mem_cons_of_mem a (ih h).1, (ih h).2⟩

/-- C1: on every adapter list holding at least one adapter that meets the three hard
requirements, `chooseCorrectGPU` returns the first such adapter in enumeration order: the
list splits around the returned adapter, which meets the requirements, and every adapter
before it fails at least one of them. -/
theorem chooseCorrectGPU_returns_first_suitable (gpus : List VulkanGPU)
    (h : ∃ g ∈ gpus, meetsHardRequirements g) :
    ∃ pre g post, gpus = pre ++ g :: post ∧ chooseCorrectGPU gpus = .ok g ∧
      meetsHardRequirements g ∧ ∀ p ∈ pre, ¬ meetsHardRequirements p :=
  chooseCorrectGPU_first gpus h

theorem chooseCorrectGPU_returns_first_suitable_witness :
    ∃ pre g post,
      [gpuNoGeometry, gpuNoRayTracing, gpuNoGraphics, gpuNoShaderClock, gpuFull]
        = pre ++ g :: post ∧
      chooseCorrectGPU
        [gpuNoGeometry, gpuNoRayTracing, gpuNoGraphics, gpuNoShaderClock, gpuFull] = .ok g ∧
      meetsHardRequirements g ∧ ∀ p ∈ pre, ¬ meetsHardRequirements p :=
  chooseCorrectGPU_returns_first_suitable
    [gpuNoGeometry, gpuNoRayTracing, gpuNoGraphics, gpuNoShaderClock, gpuFull]
    ⟨gpuFull, by decide, by decide⟩

/-- C2: `chooseCorrectGPU` fails with the error "No valid GPU found" exactly when no
adapter of the list (the empty list included) meets the three hard requirements; it has no
other error, and a failure carries no adapter. -/
theorem chooseCorrectGPU_fails_iff_none_suitable (gpus : List VulkanGPU) :
    (chooseCorrectGPU gpus = .error "No valid GPU found" ↔
      ∀ g ∈ gpus, ¬ meetsHardRequirements g) ∧
    (∀ e, chooseCorrectGPU gpus = .error e → e = "No valid GPU found") ∧
    (∀ e, chooseCorrectGPU gpus = .error e → ∀ g, chooseCorrectGPU gpus ≠ .ok g) := by
  have key : ∀ e, chooseCorrectGPU gpus = .error e → ∀ g ∈ gpus, ¬ meetsHardRequirements g := by
    intro e he g hg hm
    obtain ⟨_, g1, _, _, hok, _, _⟩ := chooseCorrectGPU_first gpus ⟨g, hg, hm⟩
    rw [hok] at he
    cases he
  refine ⟨⟨key _, chooseCorrectGPU_error_of_none gpus⟩, ?_, ?_⟩
  · intro e he
    have h := chooseCorrectGPU_error_of_none gpus (key e he)
    rw [h] at he
    cases he
    rfl
  · intro e he g hg
    rw [hg] at he
    cases he


/-! ## Properties of the registered extensions -/

theorem registeredExtensionNames_eq :
    registeredExtensionNames =
      [VK_KHR_SWAPCHAIN_EXTENSION_NAME, VK_KHR_SHADER_CLOCK_EXTENSION_NAME,
       VK_KHR_DEFERRED_HOST_OPERATIONS_EXTENSION_NAME,
       VK_KHR_ACCELERATION_STRUCTURE_EXTENSION_NAME,
       VK_KHR_RAY_TRACING_PIPELINE_EXTENSION_NAME] := by
  decide

/-- C10, as stated, fails: the adapter `gpuNoShaderClock` is the one `chooseCorrectGPU`
returns from the one-adapter list, the shader-clock extension is among the names engine
construction registers, and it is not in that adapter's supported-extension list. -/
theorem chosen_gpu_may_lack_registered_extension :
    chooseCorrectGPU [gpuNoShaderClock] = .ok gpuNoShaderClock ∧
    VK_KHR_SHADER_CLOCK_EXTENSION_NAME ∈ registeredExtensionNames ∧
    VK_KHR_SHADER_CLOCK_EXTENSION_NAME ∉ gpuNoShaderClock.supportedExtensionNames :=
  ⟨rfl, by decide, by decide⟩

/-- C10, amended: on every adapter list on which `chooseCorrectGPU` succeeds, the
ray-tracing-pipeline extension, one of the five names engine construction registers, is
in the supported-extension list of the returned adapter. -/
theorem chosen_gpu_supports_ray_tracing_pipeline (gpus : List VulkanGPU) (g : VulkanGPU)
    (h : chooseCorrectGPU gpus = .ok g) :
    VK_KHR_RAY_TRACING_PIPELINE_EXTENSION_NAME ∈ registeredExtensionNames ∧
    VK_KHR_RAY_TRACING_PIPELINE_EXTENSION_NAME ∈ g.supportedExtensionNames := by
  refine ⟨by decide, ?_⟩
  exact (chooseCorrectGPU_ok_mem gpus g h).2.2.1

theorem chosen_gpu_supports_ray_tracing_pipeline_witness :
    VK_KHR_RAY_TRACING_PIPELINE_EXTENSION_NAME ∈ registeredExtensionNames ∧
    VK_KHR_RAY_TRACING_PIPELINE_EXTENSION_NAME ∈ gpuNoShaderClock.supportedExtensionNames :=
  chosen_gpu_supports_ray_tracing_pipeline [gpuNoGeometry, gpuNoShaderClock, gpuFull]
    gpuNoShaderClock rfl

/-- C8: the five registrations of engine construction go through on a fresh manager,
whatever device ID the descriptors are given: no registration error is raised, the manager
then enumerates the five names in source order, the names are pairwise distinct, and every
declared prerequisite of a registered name stands before it (deferred host operations
before acceleration structure, acceleration structure before ray-tracing pipeline). -/
theorem engine_extension_registrations_satisfy_preconditions (d : Option ResourceID)
    (tr : List Call) :
    (∃ manager, (Engine.registerExtensions d tr).1 = .ok manager ∧
      manager.populateExtensionNames [] = registeredExtensionNames) ∧
    registeredExtensionNames.length = 5 ∧
    registeredExtensionNames.Nodup ∧
    (∀ n ∈ registeredExtensionNames, ∀ p ∈ extensionPrerequisites n,
      p ∈ registeredExtensionNames ∧
      registeredExtensionNames.indexOf p < registeredExtensionNames.indexOf n) ∧
    registeredExtensionNames.indexOf VK_KHR_DEFERRED_HOST_OPERATIONS_EXTENSION_NAME <
      registeredExtensionNames.indexOf VK_KHR_ACCELERATION_STRUCTURE_EXTENSION_NAME ∧
    registeredExtensionNames.indexOf VK_KHR_ACCELERATION_STRUCTURE_EXTENSION_NAME <
      registeredExtensionNames.indexOf VK_KHR_RAY_TRACING_PIPELINE_EXTENSION_NAME := by
  refine ⟨?_, by decide, by decide, by decide, by decide, by decide⟩
  exact ⟨_, rfl, rfl⟩


/-! ## Properties of queue selection -/

/-- Lines 77-84 of `engine.cpp` evaluated on the synthetic layout (family 0 with graphics,
compute, transfer and present and 4 queues, family 1 with transfer only and 1 queue) when
the four family lookups of lines 72-75 answer family 0 for graphics, compute and present
and family 1 for transfer: the sequence succeeds with graphics, compute and present in
family 0 below index 4 and transfer at queue 0 of family 1, all positions valid and
pairwise distinct.  Which family the absent transfer lookup answers is not settled by the
sources. -/
theorem synthetic_adapter_queue_selection :
    ∃ pos selector,
      selectQueues syntheticLayout syntheticFamily0 syntheticFamily0 syntheticFamily0
        syntheticFamily1 = .ok (pos, selector) ∧
      (pos.graphics.familyIndex = 0 ∧ pos.graphics.queueIndex < 4) ∧
      (pos.compute.familyIndex = 0 ∧ pos.compute.queueIndex < 4) ∧
      (pos.present.familyIndex = 0 ∧ pos.present.queueIndex < 4) ∧
      (pos.transfer.familyIndex = 1 ∧ pos.transfer.queueIndex = 0) ∧
      (pos.graphics.validIn syntheticLayout ∧ pos.compute.validIn syntheticLayout ∧
        pos.transfer.validIn syntheticLayout ∧ pos.present.validIn syntheticLayout) ∧
      (¬ pos.graphics.conflicts pos.compute ∧ ¬ pos.graphics.conflicts pos.transfer ∧
        ¬ pos.graphics.conflicts pos.present ∧ ¬ pos.compute.conflicts pos.transfer ∧
        ¬ pos.compute.conflicts pos.present ∧ ¬ pos.transfer.conflicts pos.present) ∧
      selector.queues = [pos.graphics, pos.compute, pos.transfer, pos.present] := by
  refine ⟨_, _, rfl, ?_⟩
  decide

/-- The same sequence when the transfer lookup answers family 0 (the first family
advertising transfer): four distinct queues again, all of them in family 0, transfer at
queue 2 and present at queue 3. -/
theorem synthetic_adapter_queue_selection_family0 :
    ∃ selector,
      selectQueues syntheticLayout syntheticFamily0 syntheticFamily0 syntheticFamily0
        syntheticFamily0 =
        .ok ({ graphics := ⟨0, 0, 1⟩, compute := ⟨0, 1, 1⟩, transfer := ⟨0, 2, 1⟩,
               present := ⟨0, 3, 1⟩ }, selector) :=
  ⟨_, rfl⟩

/-! ## Properties of deferred calls -/

theorem CallOnDestroy.deferAll_fst {σ : Type} (funcs : List (σ → σ)) (c : CallOnDestroy σ)
    (s : σ) : (c.deferAll funcs s).1.m_DeferedFunctions = c.m_DeferedFunctions ++ funcs := by
  induction funcs generalizing c s with
  | nil => simp [CallOnDestroy.deferAll]
  | cons f fs ih =>
    have h := ih (c.defer f s).1 (c.defer f s).2
    simp only [CallOnDestroy.deferAll, List.foldl_cons] at h ⊢
    rw [h]
    simp [CallOnDestroy.defer]

theorem CallOnDestroy.deferAll_snd {σ : Type} (funcs : List (σ → σ)) (c : CallOnDestroy σ)
    (s : σ) : (c.deferAll funcs s).2 = s := by
  induction funcs generalizing c s with
  | nil => simp [CallOnDestroy.deferAll]
  | cons f fs ih =>
    have h := ih (c.defer f s).1 (c.defer f s).2
    simp only [CallOnDestroy.deferAll, List.foldl_cons] at h ⊢
    rw [h]
    simp [CallOnDestroy.defer]

theorem foldl_noteCall {ι : Type} (is : List ι) (notes : List ι) :
    (is.map noteCall).foldl (fun s func => func s) notes = notes ++ is := by
  induction is generalizing notes with
  | nil => simp
  | cons i is ih => simp [List.foldl_cons, ih, noteCall]

/-- C9: for a `CallOnDestroy` built from `f1` and then given `fs` by `defer` calls in
order, registration leaves the program state untouched (nothing is invoked before
destruction) and destruction applies `f1`, then each of `fs`, in registration order; with
functions that only note their own call, the notes after destruction are exactly the
registered labels, each once, first registered first; and a default-constructed instance
with no `defer` call invokes nothing. -/
theorem CallOnDestroy_invokes_in_registration_order {σ ι : Type} (f1 : σ → σ)
    (fs : List (σ → σ)) (s : σ) (i1 : ι) (is : List ι) (notes : List ι) :
    (((CallOnDestroy.ctor f1 s).1.deferAll fs (CallOnDestroy.ctor f1 s).2).2 = s) ∧
    (((CallOnDestroy.ctor f1 s).1.deferAll fs (CallOnDestroy.ctor f1 s).2).1.dtor s
      = (f1 :: fs).foldl (fun st func => func st) s) ∧
    (((CallOnDestroy.ctor (noteCall i1) notes).1.deferAll (is.map noteCall) notes).2 = notes ∧
      ((CallOnDestroy.ctor (noteCall i1) notes).1.deferAll (is.map noteCall) notes).1.dtor notes
        = notes ++ i1 :: is) ∧
    ((CallOnDestroy.default s).2 = s ∧ (CallOnDestroy.default s).1.dtor s = s) := by
  refine ⟨?_, ?_, ⟨?_, ?_⟩, rfl, rfl⟩
  · rw [CallOnDestroy.deferAll_snd]; rfl
  · simp only [CallOnDestroy.dtor, CallOnDestroy.deferAll_fst]
    rfl
  · rw [CallOnDestroy.deferAll_snd]
  · simp only [CallOnDestroy.dtor, CallOnDestroy.deferAll_fst]
    have h := foldl_noteCall (i1 :: is) notes
    simpa [CallOnDestroy.ctor, CallOnDestroy.default, CallOnDestroy.defer] using h


/-! ## Properties of the scene manager -/

theorem wellFormed_initial : SceneState.initial.wellFormed := by
  simp [SceneState.wellFormed, SceneState.initial, createdManagers, destroyedManagers]

theorem wellFormed_InitializeManager (ok : Bool) (st : SceneState) (h : st.wellFormed) :
    (Scene.InitializeManager ok st).2.wellFormed := by
  obtain ⟨h1, h2, h3, h4⟩ := h
  cases ok
  · simp only [Scene.InitializeManager, Bool.false_eq_true, if_false, Option.isNone_none,
      if_true]
    exact ⟨h1, h2, by simp, h4⟩
  · simp only [Scene.InitializeManager, if_true, Option.isNone_some, Bool.false_eq_true,
      if_false]
    refine ⟨?_, ?_, ?_, ?_⟩
    · intro m hm
      simp only [createdManagers, List.filterMap_append, List.mem_append] at hm
      rcases hm with hm | hm
      · exact Nat.lt_succ_of_lt (h1 m hm)
      · simp at hm
        subst hm
        exact Nat.lt_succ_self _
    · intro m hm
      simp only [destroyedManagers, List.filterMap_append, List.mem_append] at hm
      rcases hm with hm | hm
      · exact Nat.lt_succ_of_lt (h2 m hm)
      · simp at hm
    · intro m hm
      simp only [Option.some.injEq] at hm
      subst hm
      refine ⟨Nat.lt_succ_self _, ?_⟩
      intro hmem
      simp only [destroyedManagers, List.filterMap_append, List.mem_append] at hmem
      rcases hmem with hmem | hmem
      · exact Nat.lt_irrefl _ (h2 _ hmem)
      · simp at hmem
    · simpa [destroyedManagers, List.filterMap_append] using h4

theorem wellFormed_destroyManager (st : SceneState) (h : st.wellFormed) :
    (Scene.destroyManager st).wellFormed := by
  obtain ⟨h1, h2, h3, h4⟩ := h
  unfold Scene.destroyManager
  split
  next m hm =>
    obtain ⟨hlt, hnot⟩ := h3 m hm
    refine ⟨?_, ?_, by simp, ?_⟩
    · simpa [createdManagers, List.filterMap_append] using h1
    · intro k hk
      simp only [destroyedManagers, List.filterMap_append, List.mem_append] at hk
      rcases hk with hk | hk
      · exact h2 k hk
      · simp at hk
        subst hk
        exact hlt
    · simp only [destroyedManagers, List.filterMap_append]
      refine List.Nodup.append h4 (by simp) ?_
      intro k hk hk2
      simp at hk2
      subst hk2
      exact hnot hk
  next => exact ⟨h1, h2, h3, h4⟩

theorem wellFormed_run (calls : List SceneCall) (st : SceneState) (h : st.wellFormed) :
    (runSceneCalls calls st).wellFormed := by
  induction calls generalizing st with
  | nil => exact h
  | cons c cs ih =>
    apply ih
    cases c with
    | InitializeManager ok => exact wellFormed_InitializeManager ok st h
    | destroyManager => exact wellFormed_destroyManager st h
    | Scene ok =>
      simp only [SceneCall.apply, Scene.ctor]
      split
      · exact wellFormed_InitializeManager ok st h
      · exact h

/-- Every manager is destroyed at most once, over every sequence of calls. -/
theorem scene_manager_destroyed_at_most_once (calls : List SceneCall) :
    (destroyedManagers (runSceneCalls calls SceneState.initial).events).Nodup :=
  (wellFormed_run calls _ wellFormed_initial).2.2.2

/-- After `destroyManager` no manager is held, and a second `destroyManager` changes
nothing. -/
theorem destroyManager_leaves_none (st : SceneState) :
    (Scene.destroyManager st).s_Manager = none ∧
    Scene.destroyManager (Scene.destroyManager st) = Scene.destroyManager st := by
  unfold Scene.destroyManager
  cases h : st.s_Manager <;> simp [h]

/-- The constructor `Scene::Scene` creates a manager only when none is held. -/
theorem Scene_ctor_creates_only_when_none_held (ok : Bool) (st : SceneState)
    (h : createdOnlyWhenNoneHeld st.events = true) :
    createdOnlyWhenNoneHeld (Scene.ctor ok st).events = true := by
  unfold Scene.ctor
  cases hm : st.s_Manager with
  | some m => simpa using h
  | none =>
    cases ok
    · simpa [Scene.InitializeManager] using h
    · simp only [createdOnlyWhenNoneHeld] at h
      simp [createdOnlyWhenNoneHeld, Scene.InitializeManager, hm, h]

theorem destroyManager_keeps_createdOnlyWhenNoneHeld (st : SceneState)
    (h : createdOnlyWhenNoneHeld st.events = true) :
    createdOnlyWhenNoneHeld (Scene.destroyManager st).events = true := by
  unfold Scene.destroyManager
  split
  · simp only [createdOnlyWhenNoneHeld] at h
    simp [createdOnlyWhenNoneHeld, h]
  · exact h

/-- Call sequences that reach `InitializeManager` only through `Scene::Scene` create a
manager only when none is held. -/
theorem scene_calls_without_direct_initialize (calls : List SceneCall) (st : SceneState)
    (hcalls : ∀ c ∈ calls, ∀ ok, c ≠ SceneCall.InitializeManager ok)
    (h : createdOnlyWhenNoneHeld st.events = true) :
    createdOnlyWhenNoneHeld (runSceneCalls calls st).events = true := by
  induction calls generalizing st with
  | nil => exact h
  | cons c cs ih =>
    apply ih _ (fun c2 hc2 => hcalls c2 (List.mem_cons_of_mem c hc2))
    cases c with
    | InitializeManager ok => exact absurd rfl (hcalls _ (List.mem_cons_self _ _) ok)
    | destroyManager => exact destroyManager_keeps_createdOnlyWhenNoneHeld st h
    | Scene ok => exact Scene_ctor_creates_only_when_none_held ok st h

/-- C7: two `Scene::InitializeManager` calls in a row, both going through: the second
creates manager 1 while manager 0 is still held, so the history breaks "created only when
none is held"; after that, `destroyManager` destroys manager 1 only and manager 0 is never
destroyed. -/
theorem InitializeManager_twice_creates_while_held :
    (runSceneCalls [.InitializeManager true, .InitializeManager true]
        SceneState.initial).events
      = [.create 0 none, .create 1 (some 0)] ∧
    createdOnlyWhenNoneHeld
      (runSceneCalls [.InitializeManager true, .InitializeManager true]
        SceneState.initial).events = false ∧
    destroyedManagers
      (runSceneCalls [.InitializeManager true, .InitializeManager true, .destroyManager,
        .destroyManager] SceneState.initial).events = [1] := by
  exact ⟨rfl, rfl, rfl⟩


/-! ## Properties of engine construction -/

theorem Boot.bind_apply {α β : Type} (m : Boot α) (f : α → Boot β) (tr : List Call) :
    (m >>= f) tr =
      (match m tr with
        | (.ok a, tr2) => f a tr2
        | (.error e, tr2) => (.error e, tr2)) := rfl

theorem Boot.call_bind_ok {β : Type} (w : World) (c : Call) (f : Unit → Boot β)
    (tr : List Call) (b : β) (tr1 : List Call) :
    (Boot.call w c >>= f) tr = (.ok b, tr1) ↔
      w.throwsAt c = none ∧ f () (tr ++ [c]) = (.ok b, tr1) := by
  rw [Boot.bind_apply]
  unfold Boot.call
  cases h : w.throwsAt c <;> simp

theorem Boot.throwing_bind_ok {α β : Type} (x : Except String α) (f : α → Boot β)
    (tr : List Call) (b : β) (tr1 : List Call) :
    (Boot.throwing x >>= f) tr = (.ok b, tr1) ↔
      ∃ v, x = .ok v ∧ f v tr = (.ok b, tr1) := by
  rw [Boot.bind_apply]
  unfold Boot.throwing
  cases x <;> simp

theorem Boot.bind_of_ok {α β : Type} (m : Boot α) (f : α → Boot β) (tr tr1 : List Call)
    (a : α) (h : m tr = (.ok a, tr1)) : (m >>= f) tr = f a tr1 := by
  rw [Boot.bind_apply, h]

theorem Boot.pure_ok {α : Type} (a b : α) (tr tr1 : List Call) :
    (pure a : Boot α) tr = (.ok b, tr1) ↔ a = b ∧ tr = tr1 := by
  show ((Except.ok a, tr) : Except String α × List Call) = (.ok b, tr1) ↔ _
  simp

theorem registerExtensions_eval (d : Option ResourceID) (tr : List Call) :
    Engine.registerExtensions d tr =
      (.ok (engineManager d),
        tr ++ [.addExtension VK_KHR_SWAPCHAIN_EXTENSION_NAME d,
               .addExtension VK_KHR_SHADER_CLOCK_EXTENSION_NAME d,
               .addExtension VK_KHR_DEFERRED_HOST_OPERATIONS_EXTENSION_NAME d,
               .addExtension VK_KHR_ACCELERATION_STRUCTURE_EXTENSION_NAME d,
               .addExtension VK_KHR_RAY_TRACING_PIPELINE_EXTENSION_NAME d]) := by
  have h : Engine.registerExtensions d tr =
      (.ok (engineManager d),
        tr ++ [.addExtension VK_KHR_SWAPCHAIN_EXTENSION_NAME d]
          ++ [.addExtension VK_KHR_SHADER_CLOCK_EXTENSION_NAME d]
          ++ [.addExtension VK_KHR_DEFERRED_HOST_OPERATIONS_EXTENSION_NAME d]
          ++ [.addExtension VK_KHR_ACCELERATION_STRUCTURE_EXTENSION_NAME d]
          ++ [.addExtension VK_KHR_RAY_TRACING_PIPELINE_EXTENSION_NAME d]) := rfl
  rw [h]
  simp

theorem Engine.ctor_ok (w : World) (debug : Bool) (name : String) (size : Nat × Nat)
    (tr0 tr : List Call) (e : Engine)
    (h : Engine.ctor w debug name size tr0 = (.ok e, tr)) :
    ∃ gpu gq selector pos, chooseCorrectGPU w.gpus = .ok gpu ∧
      e = engineBuilt w pos ∧
      tr = tr0 ++ engineCalls w debug name size gpu gq selector pos := by
  unfold Engine.ctor at h
  simp only [Boot.call_bind_ok, Boot.throwing_bind_ok] at h
  obtain ⟨-, -, -, -, gpu, hgpu, -, gq, hgq, -, cq, hcq, -, pq, hpq, -, tq, htq,
    ⟨pos, selector⟩, hsel, h⟩ := h
  simp only [] at h
  rw [Boot.bind_of_ok _ _ _ _ _ (registerExtensions_eval _ _)] at h
  simp only [Boot.call_bind_ok, Boot.throwing_bind_ok, Boot.pure_ok] at h
  obtain ⟨-, -, -, -, -, -, -, -, -, -, -, -, -, -, he, htr⟩ := h
  refine ⟨gpu, gq, selector, pos, hgpu, he.symm, ?_⟩
  rw [← htr]
  have hn : (engineManager none).populateExtensionNames [] = registeredExtensionNames := rfl
  rw [hn]
  simp [engineCalls]


/-- C3: on every run in which engine construction completes, the handles passed to
collaborators are, in call order, five unassigned device IDs (one per extension
descriptor), then the device ID, the swapchain ID and twice the depth-image ID, each
after its creation call; all five registrations stand before the `createDevice` call;
and the ID each descriptor was handed differs from the `m_DeviceID` the engine ends
with, which is the one `createDevice` returned. -/
theorem engine_ctor_hands_unassigned_device_id (w : World) (debug : Bool) (name : String)
    (size : Nat × Nat) (e : Engine) (tr : List Call)
    (h : Engine.ctor w debug name size [] = (.ok e, tr)) :
    e.m_DeviceID = some w.deviceID ∧
    tr.flatMap Call.handles =
      [none, none, none, none, none, some w.deviceID, some w.swapchainID,
       some w.depthImageID, some w.depthImageID] ∧
    (tr.filter Call.isAddExtension).map Call.handles =
      registeredExtensionNames.map (fun _ => [none]) ∧
    (∀ n d, Call.addExtension n d ∈ tr → d ≠ e.m_DeviceID) ∧
    (∃ before after c, tr = before ++ c :: after ∧ c.isCreateDevice = true ∧
      (∀ x ∈ after, x.isAddExtension = false) ∧
      (∀ x ∈ before, x.isCreateDevice = false) ∧
      (before.filter Call.isAddExtension).length = 5) := by
  obtain ⟨gpu, gq, selector, pos, -, he, htr⟩ := Engine.ctor_ok w debug name size [] tr e h
  subst he
  rw [List.nil_append] at htr
  subst htr
  refine ⟨rfl, rfl, rfl, ?_, ?_⟩
  · intro n d hmem
    simp only [engineCalls, List.mem_cons, Call.addExtension.injEq, List.mem_singleton,
      reduceCtorEq, false_or, or_false, List.not_mem_nil] at hmem
    rcases hmem with ⟨-, rfl⟩ | ⟨-, rfl⟩ | ⟨-, rfl⟩ | ⟨-, rfl⟩ | ⟨-, rfl⟩ <;>
      simp [engineBuilt]
  · refine ⟨(engineCalls w debug name size gpu gq selector pos).take 13, _,
      .createDevice gpu.deviceName selector.queues registeredExtensionNames, rfl, rfl, ?_, ?_,
      rfl⟩
    · intro x hx
      simp only [List.mem_cons, List.mem_singleton, List.not_mem_nil, or_false] at hx
      rcases hx with rfl | rfl | rfl | rfl | rfl | rfl | rfl | rfl | rfl | rfl | rfl | rfl |
        rfl <;> rfl
    · intro x hx
      simp only [engineCalls, List.take_succ_cons, List.take_zero, List.mem_cons,
        List.mem_singleton, List.not_mem_nil, or_false] at hx
      rcases hx with rfl | rfl | rfl | rfl | rfl | rfl | rfl | rfl | rfl | rfl | rfl | rfl |
        rfl <;> rfl

theorem engine_ctor_hands_unassigned_device_id_witness :
    ∃ e tr, Engine.ctor (happyWorld [gpuFull]) false "VkRT" (1920, 1080) [] = (.ok e, tr) ∧
      e.m_DeviceID = some 7 ∧
      tr.flatMap Call.handles =
        [none, none, none, none, none, some 7, some 11, some 17, some 17] :=
  ⟨_, _, rfl,
   (engine_ctor_hands_unassigned_device_id (happyWorld [gpuFull]) false "VkRT" (1920, 1080)
      _ _ rfl).1,
   (engine_ctor_hands_unassigned_device_id (happyWorld [gpuFull]) false "VkRT" (1920, 1080)
      _ _ rfl).2.1⟩


/-! ## The order of creation -/

/-- Every completed engine construction creates the window, the Vulkan context, the
surface, the logical device, the swapchain, the command buffer, the depth image, its view
and the render pass, in this order. -/
theorem creationOrder_of_ctor_ok (w : World) (debug : Bool) (name : String)
    (size : Nat × Nat) (e : Engine) (tr : List Call)
    (h : Engine.ctor w debug name size [] = (.ok e, tr)) :
    creationOrder tr = engineCreationOrder := by
  obtain ⟨gpu, gq, selector, pos, -, -, htr⟩ := Engine.ctor_ok w debug name size [] tr e h
  rw [List.nil_append] at htr
  subst htr
  rfl

/-! ## Properties of program entry -/

/-- C5: whenever engine construction throws, at whatever stage, `main` never enters
`engine.run()` and never destroys an engine, constructs the engine exactly once (no
retry), logs exactly one message at error level, the caught exception, and lets the
exception leave `main` exactly in a debug build; otherwise it returns normally. -/
theorem main_on_failed_construction (w : World) (debug : Bool) (what : String)
    (calls : List Call)
    (h : Engine.ctor w debug "VkRT" (1920, 1080) [] = (.error what, calls)) :
    MainEvent.engineRun ∉ (main w debug).state.events ∧
    (∀ r, MainEvent.engineDestroy r ∉ (main w debug).state.events) ∧
    (main w debug).state.events.filter MainEvent.isEngineConstruct =
      [.engineConstruct "VkRT" 1920 1080] ∧
    (main w debug).state.events.filter MainEvent.isErrorLog =
      [.print ("Exception caught: " ++ what) .ERR] ∧
    (MainEvent.rethrow ∈ (main w debug).state.events ↔ debug = true) ∧
    ((main w debug).outcome = .uncaught what ↔ debug = true) ∧
    ((main w debug).outcome = .returned 0 ↔ debug = false) := by
  unfold main
  simp only [h]
  cases debug <;>
    simp [MainState.emit, CallOnDestroy.ctor, CallOnDestroy.default, CallOnDestroy.defer,
      CallOnDestroy.dtor, MainState.destroyManager, MainEvent.isErrorLog,
      MainEvent.isEngineConstruct, List.filter]

theorem main_on_failed_construction_witness :
    MainEvent.engineRun ∉ (main (happyWorld []) true).state.events ∧
    (main (happyWorld []) true).state.events.filter MainEvent.isErrorLog =
      [.print "Exception caught: No valid GPU found" .ERR] ∧
    (main (happyWorld []) true).outcome = .uncaught "No valid GPU found" :=
  ⟨(main_on_failed_construction (happyWorld []) true "No valid GPU found" _ rfl).1,
   (main_on_failed_construction (happyWorld []) true "No valid GPU found" _ rfl).2.2.2.1,
   ((main_on_failed_construction (happyWorld []) true "No valid GPU found" _ rfl).2.2.2.2.2.1).2
     rfl⟩

end VkRT
